import Mathlib

/-!
Verification development for the forexspace trading bot
(sources: src/Last_version.py and src/Last_version1.py).

The Python sources are shallowly embedded:
* prices are modelled as rationals (ℚ),
* the MetaTrader5 gateway is modelled as an explicit environment record
  (current positions, bid/ask/point per symbol, and the retcode returned
  by order_send for a given request),
* a Python call either returns a value or raises an exception; this is the
  PyOutcome type below,
* the tenacity retry decorator used in the sources is embedded as an
  explicit loop (tenacityAux / tenacityRun) following tenacity semantics:
  after each attempt the retry predicate is consulted; retry_if_result
  consults the predicate only when the attempt RETURNED (it reports
  no-retry when the attempt raised); stop_after_attempt bounds the number
  of attempts, and reraise=True propagates the last exception at the stop.
-/

/-! ## Signal grammar (TradingSignal.from_webhook)

The source parses a webhook payload with
  re.match(r'action=(\w+);symbol=([\w/]+);volume=(.*);open_position=(.*);position_closed=(\w+_\d+)?', data).
The regex is embedded as a specialised matcher below:
* re.match anchors at the start only: trailing text is ignored;
* (\w+) is a maximal nonempty run of word characters; since the character
  after each such group in the pattern is a literal ';' (not a word
  character), greedy matching plus backtracking is equivalent to taking
  the maximal run and then requiring the literal;
* (.*) matches any characters except newline, greedily: the first (.*)
  takes the longest split at the literal ';open_position=' whose remainder
  still contains ';position_closed=' (the rest of the pattern), the second
  (.*) takes the longest split at ';position_closed=';
* (\w+_\d+)? at the end never causes a failure: with no end anchor the
  optional group matches a tag if it can, else matches nothing.
-/

/-- Python's regex word character (ASCII fragment of \w): alphanumeric or underscore. -/
def isWordChar (c : Char) : Bool := c.isAlphanum || c == '_'

/-- A character of the symbol class [\w/]. -/
def isSymChar (c : Char) : Bool := isWordChar c || c == '/'

/-- Match a literal at the front of the input; on success return the rest. -/
def dropLit : List Char → List Char → Option (List Char)
  | [], s => some s
  | _ :: _, [] => none
  | c :: cs, d :: ds => if c == d then dropLit cs ds else none

/-- All decompositions s = a ++ lit ++ b, listed with the length of a increasing. -/
def litSplits (lit : List Char) : List Char → List (List Char × List Char)
  | [] =>
    match dropLit lit [] with
    | some r => [([], r)]
    | none => []
  | c :: cs =>
    (match dropLit lit (c :: cs) with
     | some r => [([], r)]
     | none => []) ++
    (litSplits lit cs).map (fun p => (c :: p.1, p.2))

/-- Python's `.` in a regex does not match a newline. -/
def noNewline (l : List Char) : Bool := l.all (fun c => c != '\n')

/-- Greedy match of `(.*)lit` followed by a continuation: the longest split
whose dot-star part contains no newline and whose remainder satisfies the
continuation test, i.e. the split the backtracking regex engine commits to. -/
def lastSplit (lit : List Char) (ok : List Char → Bool) (s : List Char) :
    Option (List Char × List Char) :=
  ((litSplits lit s).filter (fun p => noNewline p.1 && ok p.2)).getLast?

/-- Whether `(.*)lit` can match somewhere in s (dot-star part newline free). -/
def hasOcc (lit : List Char) (s : List Char) : Bool :=
  (litSplits lit s).any (fun p => noNewline p.1)

/-- The optional trailing group (\w+_\d+)? : with the greedy backtracking
order, \w+ consumes word characters up to the last underscore that is
directly followed by a digit, then \d+ consumes the maximal digit run;
if no such underscore exists the group matches nothing (None in Python). -/
def matchTag (s : List Char) : Option String :=
  let w := s.takeWhile isWordChar
  let ks := (List.range w.length).filter
    (fun k => decide (1 ≤ k) && (w.getD k ' ' == '_') && (w.getD (k + 1) ' ').isDigit)
  match ks.getLast? with
  | none => none
  | some k => some (String.mk (w.take (k + 1) ++ (w.drop (k + 1)).takeWhile Char.isDigit))

/-- class TradingSignal(NamedTuple) of the sources.  The volume group of the
regex is (.*), so volume is captured as a raw string; position_closed is the
optional fifth group (None when it did not participate in the match). -/
structure TradingSignal where
  action : String
  symbol : String
  volume : String
  open_position : String
  position_closed : Option String
deriving DecidableEq, Repr

/-- TradingSignal.from_webhook: the anchored regex match described above;
returns none exactly when re.match fails, in which case the source raises
ValueError("Invalid webhook data"). -/
def from_webhook (payload : String) : Option TradingSignal :=
  match dropLit "action=".toList payload.toList with
  | none => none
  | some r1 =>
    if r1.takeWhile isWordChar = [] then none else
    match dropLit ";symbol=".toList (r1.dropWhile isWordChar) with
    | none => none
    | some r3 =>
      if r3.takeWhile isSymChar = [] then none else
      match dropLit ";volume=".toList (r3.dropWhile isSymChar) with
      | none => none
      | some r5 =>
        match lastSplit ";open_position=".toList
            (fun b => hasOcc ";position_closed=".toList b) r5 with
        | none => none
        | some (vol, r6) =>
          match lastSplit ";position_closed=".toList (fun _ => true) r6 with
          | none => none
          | some (opos, r7) =>
            some ⟨String.mk (r1.takeWhile isWordChar), String.mk (r3.takeWhile isSymChar),
                  String.mk vol, String.mk opos, matchTag r7⟩

/-- class ActionType(Enum) with string values BUY / SELL / CLOSE. -/
inductive ActionType
  | BUY
  | SELL
  | CLOSE
deriving DecidableEq

/-- The .value attribute of the enum members. -/
def ActionType.value : ActionType → String
  | .BUY => "BUY"
  | .SELL => "SELL"
  | .CLOSE => "CLOSE"

/-- Python str.lower() restricted to ASCII, applied character-wise. -/
def strLower (s : String) : String := String.mk (s.toList.map Char.toLower)

/-- TradingSignal.normalize_action: lower-cased aliases enter_long/buy map to
BUY and enter_short/sell map to SELL; any other action string is returned
unchanged (in particular "close" and "CLOSE" are not touched). -/
def normalize_action (sig : TradingSignal) : TradingSignal :=
  if strLower sig.action = "enter_long" ∨ strLower sig.action = "buy" then
    { sig with action := "BUY" }
  else if strLower sig.action = "enter_short" ∨ strLower sig.action = "sell" then
    { sig with action := "SELL" }
  else sig

/-! ## Broker gateway model (MetaTrader5)

The mt5 module constants used by the sources, with their numeric values
from the MetaTrader5 package. -/

def TRADE_ACTION_DEAL : Nat := 1
def ORDER_TYPE_BUY : Nat := 0
def ORDER_TYPE_SELL : Nat := 1
def POSITION_TYPE_BUY : Nat := 0
def POSITION_TYPE_SELL : Nat := 1
def TRADE_RETCODE_DONE : Nat := 10009
def ORDER_TIME_GTC : Nat := 0
def ORDER_FILLING_FOK : Nat := 0
def ORDER_FILLING_IOC : Nat := 1

/-- One open position as enumerated by mt5.positions_get(): the fields the
sources read.  The field named type holds POSITION_TYPE_BUY or
POSITION_TYPE_SELL. -/
structure Position where
  ticket : Nat
  symbol : String
  type : Nat
  volume : ℚ
  comment : String
deriving DecidableEq, Repr

/-- The trade_request dictionary passed to mt5.order_send.  The entry
requests of enter_long / enter_short carry sl and tp keys; the closing
request of close_position_by_comment carries no sl/tp keys but a position
key — the Option fields model the presence of the dictionary keys. -/
structure TradeRequest where
  action : Nat
  symbol : String
  volume : ℚ
  type : Nat
  price : ℚ
  sl : Option ℚ
  tp : Option ℚ
  deviation : Nat
  magic : Nat
  comment : String
  type_time : Nat
  type_filling : Nat
  position : Option Nat
deriving DecidableEq, Repr

/-- The gateway environment a bot call runs against: the snapshot of open
positions (none models positions_get() returning None), per-symbol bid/ask
(mt5.symbol_info_tick) and point size (mt5.symbol_info(...).point), the
retcode mt5.order_send answers for a request (none models an order_send
result of None), and the configured deviation/magic used for closing orders
(30 and 234000 in Last_version.py; self.deviation+10 and self.magic_number
in Last_version1.py). -/
structure Env where
  positions : Option (List Position)
  bid : String → ℚ
  ask : String → ℚ
  point : String → ℚ
  send : TradeRequest → Option Nat
  closeDeviation : Nat
  magic : Nat

/-- The trade_request built by TradingBot.enter_long: market BUY at the ask,
sl = ask − stop_loss_pips*point, tp = ask + take_profit_pips*point,
fill policy IOC.  float(signal.volume) is modelled by the oracle pyFloat
(string-to-float conversion is outside the scope of this embedding). -/
def enter_long_request (pyFloat : String → ℚ) (stop_loss_pips take_profit_pips : ℚ)
    (deviation magic : Nat) (ask point : ℚ) (signal : TradingSignal) : TradeRequest :=
  { action := TRADE_ACTION_DEAL
    symbol := signal.symbol
    volume := pyFloat signal.volume
    type := ORDER_TYPE_BUY
    price := ask
    sl := some (ask - stop_loss_pips * point)
    tp := some (ask + take_profit_pips * point)
    deviation := deviation
    magic := magic
    comment := signal.open_position
    type_time := ORDER_TIME_GTC
    type_filling := ORDER_FILLING_IOC
    position := none }

/-- The trade_request built by TradingBot.enter_short: market SELL at the bid,
sl = bid + stop_loss_pips*point, tp = bid − take_profit_pips*point. -/
def enter_short_request (pyFloat : String → ℚ) (stop_loss_pips take_profit_pips : ℚ)
    (deviation magic : Nat) (bid point : ℚ) (signal : TradingSignal) : TradeRequest :=
  { action := TRADE_ACTION_DEAL
    symbol := signal.symbol
    volume := pyFloat signal.volume
    type := ORDER_TYPE_SELL
    price := bid
    sl := some (bid + stop_loss_pips * point)
    tp := some (bid - take_profit_pips * point)
    deviation := deviation
    magic := magic
    comment := signal.open_position
    type_time := ORDER_TIME_GTC
    type_filling := ORDER_FILLING_IOC
    position := none }

/-- The closing trade_request TradingBot.close_position_by_comment builds for
a matching position: opposite side, bid for closing a long and ask for
closing a short, the position's own volume and ticket, fill policy FOK.
The sl/tp prices the source computes just above the dictionary are unused
(the dictionary has no sl/tp keys), so they do not appear here. -/
def closeRequestFor (env : Env) (p : Position) : TradeRequest :=
  { action := TRADE_ACTION_DEAL
    symbol := p.symbol
    volume := p.volume
    type := if p.type = POSITION_TYPE_BUY then ORDER_TYPE_SELL else ORDER_TYPE_BUY
    price := if p.type = POSITION_TYPE_BUY then env.bid p.symbol else env.ask p.symbol
    sl := none
    tp := none
    deviation := env.closeDeviation
    magic := env.magic
    comment := "closed " ++ toString p.ticket
    type_time := ORDER_TIME_GTC
    type_filling := ORDER_FILLING_FOK
    position := some p.ticket }

/-- The exit paths of one (undecorated) call to
TradingBot.close_position_by_comment. -/
inductive CloseResult
  | noPositionsList
  | notFound
  | sendNone
  | raisedTradeFailed (retcode : Nat)
  | success (retcode : Nat)
deriving DecidableEq, Repr

/-- TradingBot.close_position_by_comment (body, without the retry
decorator), returning the exit path taken and the list of requests given to
mt5.order_send.  The source scans the position list twice — once to find the
first position whose comment equals the argument, and again to act on (and
return from) that same first match — which collapses to a single find?:
* positions_get() = None: log and return None (noPositionsList, no order);
* no position matches: log "does not exist" and return None (notFound,
  no order);
* else submit one closing order for the first match: if order_send gives
  None, log and return None; if its retcode is not TRADE_RETCODE_DONE,
  raise Exception("Trade failed"); else return the result. -/
def close_position_by_comment (env : Env) (comment : String) :
    CloseResult × List TradeRequest :=
  match env.positions with
  | none => (.noPositionsList, [])
  | some positions =>
    match positions.find? (fun p => p.comment == comment) with
    | none => (.notFound, [])
    | some p =>
      let req := closeRequestFor env p
      match env.send req with
      | none => (.sendNone, [req])
      | some rc =>
        if rc ≠ TRADE_RETCODE_DONE then (.raisedTradeFailed rc, [req])
        else (.success rc, [req])

/-! ## Python call outcomes and the tenacity retry decorator -/

/-- A Python call either returns a value or raises an exception (carrying
the exception message). -/
inductive PyOutcome (α : Type)
  | raised (msg : String)
  | returned (v : α)
deriving DecidableEq, Repr

/-- The Python values flowing through the retried calls of the sources:
an Exception object, an mt5 order_send result (identified by its retcode),
or None. -/
inductive PyObj
  | exc (msg : String)
  | result (retcode : Nat)
  | pyNone
deriving DecidableEq, Repr

/-- Substring test: does pat occur inside hay (Python: pat in hay). -/
def strContains (hay pat : String) : Bool :=
  !(litSplits pat.toList hay.toList).isEmpty

/-- is_requote_error of the sources: true when its argument is an Exception
object whose str() contains "Trade failed"; false on any non-exception
value. -/
def is_requote_error (result : PyObj) : Bool :=
  match result with
  | .exc msg => strContains msg "Trade failed"
  | _ => false

/-- tenacity retry_if_result(pred): the retry condition consults pred only
when the attempt returned a value; when the attempt raised, retry_if_result
reports no-retry (so the exception propagates un-retried). -/
def retryIfResult (pred : PyObj → Bool) : PyOutcome PyObj → Bool
  | .raised _ => false
  | .returned v => pred v

/-- tenacity with reraise=True at the stop: re-raise the last attempt's
exception; if the last attempt returned a (retry-flagged) value, a
RetryError is raised instead. -/
def reraiseFinal : PyOutcome PyObj → PyOutcome PyObj
  | .raised m => .raised m
  | .returned _ => .raised "RetryError"

/-- The tenacity driving loop for stop_after_attempt: remaining is the
number of attempts still allowed, done counts performed attempts, acc
accumulates the requests each attempt sent to the gateway.  ops n is the
outcome (and gateway requests) of the n-th invocation of the wrapped
function. -/
def tenacityAux (shouldRetry : PyOutcome PyObj → Bool)
    (ops : Nat → PyOutcome PyObj × List TradeRequest) :
    Nat → Nat → List TradeRequest → PyOutcome PyObj × List TradeRequest × Nat
  | 0, done, acc => (.raised "RetryError", acc, done)
  | remaining + 1, done, acc =>
    let out := (ops done).1
    let acc2 := acc ++ (ops done).2
    if shouldRetry out then
      if remaining = 0 then (reraiseFinal out, acc2, done + 1)
      else tenacityAux shouldRetry ops remaining (done + 1) acc2
    else (out, acc2, done + 1)

/-- @retry(retry=retry_if_result(is_requote_error), stop=stop_after_attempt(maxAttempts),
wait=wait_fixed(1), reraise=True): run up to maxAttempts attempts, retrying
while shouldRetry holds of the attempt's outcome; returns the final outcome,
all requests sent across attempts, and the number of invocations performed.
The wait_fixed(1) sleep has no observable effect in this embedding. -/
def tenacityRun (maxAttempts : Nat) (shouldRetry : PyOutcome PyObj → Bool)
    (ops : Nat → PyOutcome PyObj × List TradeRequest) :
    PyOutcome PyObj × List TradeRequest × Nat :=
  tenacityAux shouldRetry ops maxAttempts 0 []

/-- How one undecorated close call looks to the decorator: a raise of
Exception("Trade failed"), or a returned value (None on the early-return
paths, the order_send result on success). -/
def closeOutcome : CloseResult → PyOutcome PyObj
  | .raisedTradeFailed _ => .raised "Trade failed"
  | .success rc => .returned (.result rc)
  | _ => .returned .pyNone

/-- One attempt of the decorated close_position_by_comment. -/
def closeAttempt (env : Env) (comment : String) : PyOutcome PyObj × List TradeRequest :=
  (closeOutcome (close_position_by_comment env comment).1,
   (close_position_by_comment env comment).2)

/-- close_position_by_comment as called by the rest of the bot: the body
wrapped in the retry decorator (5 attempts).  The environment is a fixed
snapshot, so every attempt behaves alike. -/
def closeDecorated (env : Env) (comment : String) :
    PyOutcome PyObj × List TradeRequest × Nat :=
  tenacityRun 5 (retryIfResult is_requote_error) (fun _ => closeAttempt env comment)

/-- TradingBot.close_all_positions body over the enumerated snapshot: close
each position by its own comment, in order.  The loop body performs a bare
call of the (decorated) close; there is no try/except inside the loop, so
an exception raised by one close propagates out of close_all_positions at
once and the remaining positions are not attempted. -/
def closeLoop (env : Env) : List Position → PyOutcome Unit × List TradeRequest
  | [] => (.returned (), [])
  | p :: rest =>
    match (closeDecorated env p.comment).1 with
    | .raised m => (.raised m, (closeDecorated env p.comment).2.1)
    | .returned _ =>
      ((closeLoop env rest).1,
        (closeDecorated env p.comment).2.1 ++ (closeLoop env rest).2)

/-- TradingBot.close_all_positions: positions_get() = None logs and returns;
otherwise iterate the snapshot with closeLoop. -/
def close_all_positions (env : Env) : PyOutcome Unit × List TradeRequest :=
  match env.positions with
  | none => (.returned (), [])
  | some ps => closeLoop env ps

/-! ## TradingBot.execute_order (signal dispatch)

Only the dispatch decisions are modelled here; the sub-calls appear as named
effects in order.  The surrounding try/except of the source converts any
exception from a sub-call into a log entry and is not relevant to which
branch is dispatched. -/

/-- The calls and error logs execute_order can perform, in order. -/
inductive Effect
  | enterLong (s : TradingSignal)
  | enterShort (s : TradingSignal)
  | closeByComment (tag : String)
  | closeAllPositions
  | logErrorUnsupported
  | logErrorNotTradingTime
  | logErrorOpenPositionRequired
deriving DecidableEq, Repr

/-- Truthiness of signal.position_closed: the field is None when the
optional regex group did not participate, and a possibly empty string
otherwise; Python treats None and "" as false. -/
def pyTruthy : Option String → Bool
  | none => false
  | some s => s ≠ ""

/-- The close-on-entry tail of a branch: close_position_by_comment is called
only when signal.position_closed is truthy. -/
def closeTail (sig : TradingSignal) : List Effect :=
  match sig.position_closed with
  | none => []
  | some s => if s = "" then [] else [.closeByComment s]

/-- Python equality between a str and a member of a plain Enum subclass:
`'BUY' == ActionType.BUY` is always False (ActionType derives from Enum,
not str, so an Enum member never equals its string value). -/
def pyEqStrActionType (_ : String) (_ : ActionType) : Bool := false

/-- TradingBot.execute_order of Last_version.py: the gate and open-position
check, then the action dispatch.  The action comparisons are
signal.action == ActionType.BUY and signal.action == ActionType.SELL,
a str-versus-Enum comparison (see pyEqStrActionType). -/
def execute_order_v0 (is_trading_time : Bool) (signal : TradingSignal) : List Effect :=
  if is_trading_time ∧ signal.open_position ≠ "" then
    if pyEqStrActionType signal.action ActionType.BUY then
      .enterLong signal :: closeTail signal
    else if pyEqStrActionType signal.action ActionType.SELL then
      .enterShort signal :: closeTail signal
    else [.logErrorUnsupported]
  else
    if ¬ is_trading_time then [.closeAllPositions, .logErrorNotTradingTime]
    else [.logErrorOpenPositionRequired]

/-- TradingBot.execute_order of Last_version1.py: identical control flow,
but the action comparisons are the string comparisons
signal.action == "BUY" and signal.action == "SELL". -/
def execute_order_v1 (is_trading_time : Bool) (signal : TradingSignal) : List Effect :=
  if is_trading_time ∧ signal.open_position ≠ "" then
    if signal.action = "BUY" then
      .enterLong signal :: closeTail signal
    else if signal.action = "SELL" then
      .enterShort signal :: closeTail signal
    else [.logErrorUnsupported]
  else
    if ¬ is_trading_time then [.closeAllPositions, .logErrorNotTradingTime]
    else [.logErrorOpenPositionRequired]

/-! ## DynamicStopLossTakeProfit.adjust_trailing_stop -/

/-- The state of a DynamicStopLossTakeProfit instance (the fields
adjust_trailing_stop reads and writes). -/
structure DynamicSLTP where
  symbol : String
  action : String
  take_profit : ℚ
  stop_loss : ℚ
  trailing_stop_distance : ℚ
deriving DecidableEq, Repr

/-- DynamicStopLossTakeProfit.adjust_trailing_stop: lastClose is
price_data[-1], the latest daily close fetched from the gateway.  For a
long (action equal to ActionType.BUY.value, i.e. "BUY" — Last_version1.py
writes the literal "BUY") whose last close exceeds stop_loss +
trailing_stop_distance, the stop is raised to lastClose − distance;
symmetrically for a short the stop is lowered to lastClose + distance;
otherwise the state is unchanged. -/
def adjust_trailing_stop (st : DynamicSLTP) (lastClose : ℚ) : DynamicSLTP :=
  if st.action = ActionType.BUY.value ∧
      lastClose > st.stop_loss + st.trailing_stop_distance then
    { st with stop_loss := lastClose - st.trailing_stop_distance }
  else if st.action = ActionType.SELL.value ∧
      lastClose < st.stop_loss - st.trailing_stop_distance then
    { st with stop_loss := lastClose + st.trailing_stop_distance }
  else st

/-! ## TradingBot.is_trading_time

The source converts the current server time to Asia/Shanghai local time and
reads its hour and weekday (Python weekday(): Monday = 0 … Sunday = 6, so
Saturday and Sunday are the weekdays ≥ 5).  The gate is a pure function of
those two numbers; it returns the int 1 (trading) or 0 (closed), which the
caller uses as a truth value. -/

/-- is_trading_time of Last_version.py: closed on weekends and in the
hard-coded hour window 4 ≤ hour < 7. -/
def is_trading_time_v0 (day_of_week hour : Nat) : Nat :=
  if day_of_week ≥ 5 ∨ (hour ≥ 4 ∧ hour < 7) then 0 else 1

/-- is_trading_time of Last_version1.py: closed on weekends and in the
hard-coded hour window 6 ≤ hour < 7. -/
def is_trading_time_v1 (day_of_week hour : Nat) : Nat :=
  if day_of_week ≥ 5 ∨ (hour ≥ 6 ∧ hour < 7) then 0 else 1

/-! ## Concrete data used by witnesses and counterexamples -/

/-- An open long position tagged Long_1. -/
def posA : Position := ⟨11, "EURUSD", POSITION_TYPE_BUY, 1, "Long_1"⟩

/-- An open short position tagged Short_2. -/
def posB : Position := ⟨22, "EURUSD", POSITION_TYPE_SELL, 2, "Short_2"⟩

/-- A second open long position also tagged Long_1. -/
def posC : Position := ⟨33, "EURUSD", POSITION_TYPE_BUY, 3, "Long_1"⟩

/-- A gateway environment with the given position snapshot and a fixed
order_send retcode (the per-symbol quote data is constant). -/
def mkEnv (ps : List Position) (rc : Option Nat) : Env :=
  { positions := some ps
    bid := fun _ => (1.1 : ℚ)
    ask := fun _ => (1.2 : ℚ)
    point := fun _ => (0.0001 : ℚ)
    send := fun _ => rc
    closeDeviation := 30
    magic := 234000 }

/-- A concrete normalized BUY signal with a non-empty open tag. -/
def buySig : TradingSignal := ⟨"BUY", "EURUSD", "1.0", "Long_1", none⟩

/-! ## Shared lemmas -/

/-- An outcome that is a returned Exception object.  The retried functions
of the sources (enter_long, enter_short, close_position_by_comment) never
return an Exception object: failures are raised, and the returned values
are order_send results or None. -/
def returnsExcObj : PyOutcome PyObj → Bool
  | .returned (.exc _) => true
  | _ => false

/-- Whether an outcome is a raised exception. -/
def raisesB {α : Type} : PyOutcome α → Bool
  | .raised _ => true
  | .returned _ => false

lemma retryIfResult_is_requote_false (o : PyOutcome PyObj)
    (h : returnsExcObj o = false) : retryIfResult is_requote_error o = false := by
  cases o with
  | raised m => rfl
  | returned v =>
    cases v with
    | exc m => simp [returnsExcObj] at h
    | result rc => rfl
    | pyNone => rfl

/-- The retry policy as configured in the sources performs exactly one
invocation whenever the wrapped operation never returns an Exception
object: retry_if_result declines to retry a raised exception, and
is_requote_error is false on every non-exception value. -/
lemma tenacityRun_once (m : Nat) (hm : 1 ≤ m)
    (ops : Nat → PyOutcome PyObj × List TradeRequest)
    (h : returnsExcObj (ops 0).1 = false) :
    tenacityRun m (retryIfResult is_requote_error) ops = ((ops 0).1, (ops 0).2, 1) := by
  obtain ⟨k, rfl⟩ : ∃ k, m = k + 1 := ⟨m - 1, by omega⟩
  show tenacityAux _ _ (k + 1) 0 [] = _
  rw [tenacityAux]
  simp [retryIfResult_is_requote_false _ h]

lemma closeOutcome_not_exc (r : CloseResult) : returnsExcObj (closeOutcome r) = false := by
  cases r <;> rfl

/-- The decorated close equals one undecorated call. -/
lemma closeDecorated_eq (env : Env) (c : String) :
    closeDecorated env c =
      (closeOutcome (close_position_by_comment env c).1,
       (close_position_by_comment env c).2, 1) := by
  unfold closeDecorated
  rw [tenacityRun_once 5 (by omega) _ (closeOutcome_not_exc _)]
  rfl

/-! ## Claim C1 -/

/-- Claim C1 (settled as a code bug).  In Last_version1.py the dispatch of
execute_order behaves as claimed: with the gate open and a non-empty
open_position tag, a BUY signal dispatches enter_long, a SELL signal
dispatches enter_short, and any other action only logs "Action is not
supported." with no order call.  In Last_version.py the same dispatch
compares the action string against the ActionType enum member — always
False in Python — so even the normalized BUY signal falls through to the
unsupported branch and no order is ever submitted. -/
theorem C1_execute_order_dispatch :
    (∀ sig : TradingSignal, sig.open_position ≠ "" →
      (sig.action = "BUY" →
        execute_order_v1 true sig = Effect.enterLong sig :: closeTail sig) ∧
      (sig.action = "SELL" →
        execute_order_v1 true sig = Effect.enterShort sig :: closeTail sig) ∧
      (sig.action ≠ "BUY" → sig.action ≠ "SELL" →
        execute_order_v1 true sig = [Effect.logErrorUnsupported])) ∧
    execute_order_v0 true buySig = [Effect.logErrorUnsupported] := by
  constructor
  · intro sig hop
    refine ⟨fun h1 => ?_, fun h1 => ?_, fun h1 h2 => ?_⟩
    · simp [execute_order_v1, hop, h1]
    · simp [execute_order_v1, hop, h1]
    · simp [execute_order_v1, hop, h1, h2]
  · rfl

/-- Witness for C1 at the concrete normalized BUY signal. -/
theorem C1_execute_order_dispatch_witness :
    execute_order_v1 true buySig = Effect.enterLong buySig :: closeTail buySig :=
  (C1_execute_order_dispatch.1 buySig (by decide)).1 rfl

/-! ## Claim C2 -/

/-- An operation that raises Exception("Trade failed") on its first
invocation and would succeed on every later invocation (the transient
failure of the claim, with k = 1). -/
def failThenSucceed : Nat → PyOutcome PyObj × List TradeRequest
  | 0 => (.raised "Trade failed", [])
  | _ + 1 => (.returned (.result TRADE_RETCODE_DONE), [])

/-- Claim C2 (settled as a code bug).  The retry policy of the sources —
tenacity with retry=retry_if_result(is_requote_error),
stop=stop_after_attempt(5), reraise=True — never retries: the wrapped
operations signal failure by raising, retry_if_result declines to retry a
raised exception, and is_requote_error is false on every value the
operations can return.  So for every such operation the wrapper performs
exactly one invocation and hands back that first outcome; in particular the
operation that fails transiently once and would then succeed is invoked
once and its exception propagates, against the claimed k+1 invocations and
returned success. -/
theorem C2_retry_never_retries :
    (∀ m : Nat, 1 ≤ m → ∀ ops : Nat → PyOutcome PyObj × List TradeRequest,
      (∀ n, returnsExcObj (ops n).1 = false) →
      tenacityRun m (retryIfResult is_requote_error) ops = ((ops 0).1, (ops 0).2, 1)) ∧
    tenacityRun 5 (retryIfResult is_requote_error) failThenSucceed =
      (.raised "Trade failed", [], 1) := by
  constructor
  · intro m hm ops h
    exact tenacityRun_once m hm ops (h 0)
  · rfl

/-- Witness for C2: the single-invocation theorem applied to the concrete
fail-then-succeed operation under the configured stop of 5 attempts. -/
theorem C2_retry_never_retries_witness :
    tenacityRun 5 (retryIfResult is_requote_error) failThenSucceed =
      ((failThenSucceed 0).1, (failThenSucceed 0).2, 1) :=
  C2_retry_never_retries.1 5 (by omega) failThenSucceed (fun n => by cases n <;> rfl)

/-! ## Claim C4 -/

/-- Claim C4 (confirmed).  Every long entry order is submitted at the ask
with sl = ask − stopLossPips·point and tp = ask + takeProfitPips·point;
every short entry order at the bid with sl = bid + stopLossPips·point and
tp = bid − takeProfitPips·point; for ask 1.1050, point 0.0001,
stopLossPips 50, takeProfitPips 100 the BUY order carries sl 1.1000 and
tp 1.1150. -/
theorem C4_entry_levels :
    (∀ (pyFloat : String → ℚ) (slp tpp : ℚ) (dev mag : Nat) (ask point : ℚ)
        (sig : TradingSignal),
      (enter_long_request pyFloat slp tpp dev mag ask point sig).price = ask ∧
      (enter_long_request pyFloat slp tpp dev mag ask point sig).sl =
        some (ask - slp * point) ∧
      (enter_long_request pyFloat slp tpp dev mag ask point sig).tp =
        some (ask + tpp * point) ∧
      (enter_long_request pyFloat slp tpp dev mag ask point sig).type = ORDER_TYPE_BUY) ∧
    (∀ (pyFloat : String → ℚ) (slp tpp : ℚ) (dev mag : Nat) (bid point : ℚ)
        (sig : TradingSignal),
      (enter_short_request pyFloat slp tpp dev mag bid point sig).price = bid ∧
      (enter_short_request pyFloat slp tpp dev mag bid point sig).sl =
        some (bid + slp * point) ∧
      (enter_short_request pyFloat slp tpp dev mag bid point sig).tp =
        some (bid - tpp * point) ∧
      (enter_short_request pyFloat slp tpp dev mag bid point sig).type = ORDER_TYPE_SELL) ∧
    ((enter_long_request (fun _ => 1) 50 100 20 234000 (1.1050 : ℚ) (0.0001 : ℚ) buySig).sl =
        some (1.1000 : ℚ) ∧
      (enter_long_request (fun _ => 1) 50 100 20 234000 (1.1050 : ℚ) (0.0001 : ℚ) buySig).tp =
        some (1.1150 : ℚ)) := by
  refine ⟨fun _ _ _ _ _ _ _ _ => ⟨rfl, rfl, rfl, rfl⟩,
          fun _ _ _ _ _ _ _ _ => ⟨rfl, rfl, rfl, rfl⟩, ?_, ?_⟩
  · show some ((1.1050 : ℚ) - 50 * 0.0001) = some (1.1000 : ℚ)
    have h : (1.1050 : ℚ) - 50 * 0.0001 = 1.1000 := by norm_num
    rw [h]
  · show some ((1.1050 : ℚ) + 100 * 0.0001) = some (1.1150 : ℚ)
    have h : (1.1050 : ℚ) + 100 * 0.0001 = 1.1150 := by norm_num
    rw [h]

/-! ## Claim C7 -/

/-- Counterexample for claim C7: no single configured window [startHour,
endHour) makes the trading-hours rule of the claim agree with both studied
revisions — at Monday 04:00 Asia/Shanghai, Last_version.py reports closed
while Last_version1.py reports open, because each revision hard-codes its
own bounds (4–7 versus 6–7) instead of exposing a configuration
parameter. -/
theorem C7_cex : ¬ ∃ startHour endHour : Nat, ∀ day hour : Nat,
    (is_trading_time_v0 day hour = 0 ↔ 5 ≤ day ∨ (startHour ≤ hour ∧ hour < endHour)) ∧
    (is_trading_time_v1 day hour = 0 ↔ 5 ≤ day ∨ (startHour ≤ hour ∧ hour < endHour)) := by
  rintro ⟨s, e, h⟩
  have h4 := (h 0 4).1.mp (by decide)
  have h4' := (h 0 4).2.mpr h4
  exact absurd h4' (by decide)

/-- Claim C7 as amended: each revision's gate reports closed exactly on
Saturday/Sunday or in that revision's own hard-coded hour window —
[4, 7) in Last_version.py and [6, 7) in Last_version1.py. -/
theorem C7_amended_gate : ∀ day hour : Nat,
    (is_trading_time_v0 day hour = 0 ↔ 5 ≤ day ∨ (4 ≤ hour ∧ hour < 7)) ∧
    (is_trading_time_v1 day hour = 0 ↔ 5 ≤ day ∨ (6 ≤ hour ∧ hour < 7)) := by
  intro day hour
  constructor
  · simp only [is_trading_time_v0]
    split <;> simp_all [ge_iff_le]
  · simp only [is_trading_time_v1]
    split <;> simp_all [ge_iff_le]

/-! ## Claim C9 -/

/-- Characterization of adjust_trailing_stop for a long position: the
source guard lastClose > stop + distance is the comparison
stop < lastClose − distance of the updated value with the current stop. -/
lemma adjustBuyEq (st : DynamicSLTP) (lc : ℚ) (hb : st.action = "BUY") :
    (adjust_trailing_stop st lc).stop_loss =
      if st.stop_loss < lc - st.trailing_stop_distance
      then lc - st.trailing_stop_distance else st.stop_loss := by
  have hiff : st.stop_loss < lc - st.trailing_stop_distance ↔
      st.stop_loss + st.trailing_stop_distance < lc := lt_sub_iff_add_lt
  unfold adjust_trailing_stop
  by_cases h : st.stop_loss + st.trailing_stop_distance < lc
  · rw [if_pos ⟨hb, h⟩, if_pos (hiff.mpr h)]
  · rw [if_neg (fun hc => h hc.2),
      if_neg (fun hc => absurd (hb.symm.trans hc.1) (by decide)),
      if_neg (fun hc => h (hiff.mp hc))]

/-- Characterization of adjust_trailing_stop for a short position. -/
lemma adjustSellEq (st : DynamicSLTP) (lc : ℚ) (hs : st.action = "SELL") :
    (adjust_trailing_stop st lc).stop_loss =
      if lc + st.trailing_stop_distance < st.stop_loss
      then lc + st.trailing_stop_distance else st.stop_loss := by
  have hiff : lc + st.trailing_stop_distance < st.stop_loss ↔
      lc < st.stop_loss - st.trailing_stop_distance := (lt_sub_iff_add_lt).symm
  unfold adjust_trailing_stop
  by_cases h : lc < st.stop_loss - st.trailing_stop_distance
  · rw [if_neg (fun hc => absurd (hs.symm.trans hc.1) (by decide)),
      if_pos ⟨hs, h⟩, if_pos (hiff.mpr h)]
  · rw [if_neg (fun hc => absurd (hs.symm.trans hc.1) (by decide)),
      if_neg (fun hc => h hc.2), if_neg (fun hc => h (hiff.mp hc))]

/-- Claim C9 (confirmed).  adjust_trailing_stop never decreases a long
(BUY) position's stop-loss and never increases a short (SELL) position's
stop-loss; the long stop is moved to lastClose − distance exactly when
that value is above the current stop (the source's guard
lastClose > stop + distance), symmetrically for short. -/
theorem C9_trailing_stop :
    ∀ (st : DynamicSLTP) (lastClose : ℚ),
      (st.action = "BUY" →
        (adjust_trailing_stop st lastClose).stop_loss =
          (if st.stop_loss < lastClose - st.trailing_stop_distance
           then lastClose - st.trailing_stop_distance else st.stop_loss) ∧
        st.stop_loss ≤ (adjust_trailing_stop st lastClose).stop_loss) ∧
      (st.action = "SELL" →
        (adjust_trailing_stop st lastClose).stop_loss =
          (if lastClose + st.trailing_stop_distance < st.stop_loss
           then lastClose + st.trailing_stop_distance else st.stop_loss) ∧
        (adjust_trailing_stop st lastClose).stop_loss ≤ st.stop_loss) := by
  intro st lc
  refine ⟨fun hb => ⟨adjustBuyEq st lc hb, ?_⟩, fun hs => ⟨adjustSellEq st lc hs, ?_⟩⟩
  · rw [adjustBuyEq st lc hb]
    split_ifs with h <;> linarith
  · rw [adjustSellEq st lc hs]
    split_ifs with h <;> linarith

/-- Witness for C9 at a concrete favorable move of a long position:
stop 1.0, distance 0.1, last close 2.0 gives the new stop 1.9. -/
theorem C9_trailing_stop_witness :
    (adjust_trailing_stop ⟨"EURUSD", "BUY", 2, 1, (0.1 : ℚ)⟩ 2).stop_loss =
      (if (1 : ℚ) < 2 - 0.1 then 2 - 0.1 else 1) ∧
    (1 : ℚ) ≤ (adjust_trailing_stop ⟨"EURUSD", "BUY", 2, 1, (0.1 : ℚ)⟩ 2).stop_loss :=
  (C9_trailing_stop ⟨"EURUSD", "BUY", 2, 1, (0.1 : ℚ)⟩ 2).1 rfl


/-! ## Claim C5 -/

/-- Claim C5 (confirmed).  When no open position carries the requested tag,
close_position_by_comment takes the position-not-found exit (it logs
"Position with comment ... does not exist" and returns None) and hands the
gateway zero closing orders; under the retry decorator that is a single
invocation returning None. -/
theorem C5_close_by_tag_not_found :
    ∀ (env : Env) (ps : List Position) (tag : String),
      env.positions = some ps →
      (∀ p ∈ ps, p.comment ≠ tag) →
      close_position_by_comment env tag = (CloseResult.notFound, []) ∧
      closeDecorated env tag = (.returned PyObj.pyNone, [], 1) := by
  intro env ps tag hps hno
  have hfind : ps.find? (fun p => p.comment == tag) = none := by
    rw [List.find?_eq_none]
    intro p hp
    simpa using hno p hp
  have hplain : close_position_by_comment env tag = (CloseResult.notFound, []) := by
    simp only [close_position_by_comment, hps, hfind]
  refine ⟨hplain, ?_⟩
  rw [closeDecorated_eq, hplain]
  rfl

/-- Witness for C5: the snapshot holding only posA has no position tagged
Nope_7. -/
theorem C5_close_by_tag_not_found_witness :
    close_position_by_comment (mkEnv [posA] (some TRADE_RETCODE_DONE)) "Nope_7" =
        (CloseResult.notFound, []) ∧
      closeDecorated (mkEnv [posA] (some TRADE_RETCODE_DONE)) "Nope_7" =
        (.returned PyObj.pyNone, [], 1) :=
  C5_close_by_tag_not_found (mkEnv [posA] (some TRADE_RETCODE_DONE)) [posA] "Nope_7"
    rfl (by decide)

/-! ## Claim C10 -/

/-- Claim C10 (confirmed).  When the tag matches more than one open
position, close_position_by_comment still submits exactly one closing
order, the one for the first matching position in enumeration order (the
function returns from inside the loop after acting on the first match);
the other positions with the same tag receive no order. -/
theorem C10_close_first_match_only :
    ∀ (env : Env) (ps : List Position) (tag : String) (p : Position),
      env.positions = some ps →
      ps.find? (fun q => q.comment == tag) = some p →
      1 < (ps.filter (fun q => q.comment == tag)).length →
      (closeDecorated env tag).2.1 = [closeRequestFor env p] := by
  intro env ps tag p hps hfind _
  rw [closeDecorated_eq]
  show (close_position_by_comment env tag).2 = _
  simp only [close_position_by_comment, hps, hfind]
  cases h : env.send (closeRequestFor env p) with
  | none => rfl
  | some rc =>
    dsimp only
    split <;> rfl

/-- Witness for C10: posA and posC both carry the tag Long_1; only posA
(the first in enumeration order) receives a closing order. -/
theorem C10_close_first_match_only_witness :
    (closeDecorated (mkEnv [posA, posB, posC] (some TRADE_RETCODE_DONE)) "Long_1").2.1 =
      [closeRequestFor (mkEnv [posA, posB, posC] (some TRADE_RETCODE_DONE)) posA] :=
  C10_close_first_match_only (mkEnv [posA, posB, posC] (some TRADE_RETCODE_DONE))
    [posA, posB, posC] "Long_1" posA rfl (by decide) (by decide)

/-! ## Claim C3 -/

/-- The environment of the C3 counterexample: two open positions, and a
gateway that answers every order_send with a non-DONE retcode (10004 is
TRADE_RETCODE_REQUOTE), so the first close raises Exception("Trade
failed"). -/
def envC3 : Env := mkEnv [posA, posB] (some 10004)

/-- Counterexample for claim C3: with two open positions and a gateway
rejecting the first close, close_all_positions propagates the exception of
the first close immediately — exactly one closing order (for posA) is
submitted, and the remaining position posB is never attempted, contrary to
the claimed log-and-continue behavior. -/
theorem C3_cex :
    (close_all_positions envC3).1 = PyOutcome.raised "Trade failed" ∧
    (close_all_positions envC3).2 = [closeRequestFor envC3 posA] ∧
    ∀ r ∈ (close_all_positions envC3).2, r.position ≠ some posB.ticket := by
  refine ⟨rfl, rfl, ?_⟩
  decide

/-- The loop of close_all_positions when no close raises: every position in
the snapshot is attempted, in order, and the effects concatenate. -/
lemma closeLoop_all_attempted (env : Env) :
    ∀ l : List Position,
      (∀ p ∈ l, raisesB (closeDecorated env p.comment).1 = false) →
      closeLoop env l =
        (.returned (), (l.map fun p => (closeDecorated env p.comment).2.1).flatten) := by
  intro l
  induction l with
  | nil => intro _; rfl
  | cons p rest ih =>
    intro h
    have hp := h p (by simp)
    cases hout : (closeDecorated env p.comment).1 with
    | raised m => rw [hout] at hp; simp [raisesB] at hp
    | returned v =>
      have hrest := ih (fun q hq => h q (by simp [hq]))
      simp [closeLoop, hout, hrest]

/-- The loop of close_all_positions aborts at the first raising close: the
effects are those of the non-raising closes before it plus the one failing
close, and the exception propagates; the positions after it are not
attempted. -/
lemma closeLoop_abort (env : Env) (p : Position)
    (hp : raisesB (closeDecorated env p.comment).1 = true) :
    ∀ (pre post : List Position),
      (∀ q ∈ pre, raisesB (closeDecorated env q.comment).1 = false) →
      raisesB (closeLoop env (pre ++ p :: post)).1 = true ∧
      (closeLoop env (pre ++ p :: post)).2 =
        (pre.map fun q => (closeDecorated env q.comment).2.1).flatten ++
          (closeDecorated env p.comment).2.1 := by
  intro pre
  induction pre with
  | nil =>
    intro post _
    cases hout : (closeDecorated env p.comment).1 with
    | raised m => constructor <;> simp [closeLoop, hout, raisesB]
    | returned v => rw [hout] at hp; simp [raisesB] at hp
  | cons q rest ih =>
    intro post hpre
    have hq := hpre q (by simp)
    cases hout : (closeDecorated env q.comment).1 with
    | raised m => rw [hout] at hq; simp [raisesB] at hq
    | returned v =>
      have hrest := ih post (fun x hx => hpre x (by simp [hx]))
      constructor
      · simpa [closeLoop, hout] using hrest.1
      · simp [closeLoop, hout, hrest.2]

/-- Claim C3 as amended: close_all_positions attempts a close for every
enumerated position only as long as no close raises; the non-raising
failure exits of an individual close (missing position, order_send
returning None) let the loop continue, but a close raising a trade failure
aborts close_all_positions at once and the remaining positions are not
attempted. -/
theorem C3_amended_close_all :
    ∀ (env : Env) (ps : List Position), env.positions = some ps →
      ((∀ p ∈ ps, raisesB (closeDecorated env p.comment).1 = false) →
        close_all_positions env =
          (.returned (), (ps.map fun p => (closeDecorated env p.comment).2.1).flatten)) ∧
      (∀ (pre : List Position) (p : Position) (post : List Position),
        ps = pre ++ p :: post →
        (∀ q ∈ pre, raisesB (closeDecorated env q.comment).1 = false) →
        raisesB (closeDecorated env p.comment).1 = true →
        raisesB (close_all_positions env).1 = true ∧
        (close_all_positions env).2 =
          (pre.map fun q => (closeDecorated env q.comment).2.1).flatten ++
            (closeDecorated env p.comment).2.1) := by
  intro env ps hps
  have hca : close_all_positions env = closeLoop env ps := by
    simp only [close_all_positions, hps]
  constructor
  · intro h
    rw [hca]
    exact closeLoop_all_attempted env ps h
  · intro pre p post hsplit hpre hp
    rw [hca, hsplit]
    exact closeLoop_abort env p hp pre post hpre

/-- Witness for C3's amended claim at the counterexample environment: the
snapshot is posA followed by posB, the close of posA raises, and
close_all_positions stops having submitted only posA's closing order. -/
theorem C3_amended_close_all_witness :
    raisesB (close_all_positions envC3).1 = true ∧
    (close_all_positions envC3).2 =
      (([] : List Position).map fun q => (closeDecorated envC3 q.comment).2.1).flatten ++
        (closeDecorated envC3 posA.comment).2.1 :=
  (C3_amended_close_all envC3 [posA, posB] rfl).2 [] posA [posB] rfl
    (by intro q hq; cases hq) (by decide)

/-! ## Claims C6 and C8: structure of a successful parse -/

lemma dropLit_eq_append :
    ∀ (lit s r : List Char), dropLit lit s = some r → s = lit ++ r := by
  intro lit
  induction lit with
  | nil =>
    intro s r h
    simp only [dropLit, Option.some.injEq] at h
    simp [h]
  | cons c cs ih =>
    intro s r h
    cases s with
    | nil => exact absurd h (by simp [dropLit])
    | cons d ds =>
      simp only [dropLit] at h
      split at h
      · rename_i hcd
        rw [ih ds r h, (beq_iff_eq.mp hcd)]
        rfl
      · exact absurd h (by simp)

lemma litSplits_eq_append :
    ∀ (lit s : List Char) (p : List Char × List Char),
      p ∈ litSplits lit s → s = p.1 ++ lit ++ p.2 := by
  intro lit s
  induction s with
  | nil =>
    intro p hp
    simp only [litSplits] at hp
    split at hp
    · rename_i r hr
      have h0 := dropLit_eq_append lit [] r hr
      simp only [List.mem_singleton] at hp
      subst hp
      simpa using h0
    · exact absurd hp (by simp)
  | cons c cs ih =>
    intro p hp
    simp only [litSplits, List.mem_append] at hp
    rcases hp with hp | hp
    · split at hp
      · rename_i r hr
        have h0 := dropLit_eq_append lit (c :: cs) r hr
        simp only [List.mem_singleton] at hp
        subst hp
        simpa using h0
      · exact absurd hp (by simp)
    · rcases List.mem_map.mp hp with ⟨q, hq, rfl⟩
      have h0 := ih q hq
      simp only [List.cons_append]
      rw [← h0]

lemma lastSplit_eq_append (lit : List Char) (ok : List Char → Bool)
    (s a b : List Char) (h : lastSplit lit ok s = some (a, b)) :
    s = a ++ lit ++ b := by
  have hmem : (a, b) ∈ (litSplits lit s).filter (fun p => noNewline p.1 && ok p.2) :=
    List.mem_of_mem_getLast? (Option.mem_def.mpr h)
  exact litSplits_eq_append lit s (a, b) (List.mem_of_mem_filter hmem)

lemma dropLit_suffix (lit s r : List Char) (h : dropLit lit s = some r) : r <:+ s :=
  ⟨lit, (dropLit_eq_append lit s r h).symm⟩

lemma dropWhileSuffix (p : Char → Bool) : ∀ l : List Char, l.dropWhile p <:+ l := by
  intro l
  induction l with
  | nil => exact List.suffix_refl _
  | cons c cs ih =>
    rw [List.dropWhile_cons]
    split
    · exact ih.trans (List.suffix_cons c cs)
    · exact List.suffix_refl _

lemma lastSplit_tail_suffix (lit : List Char) (ok : List Char → Bool)
    (s a b : List Char) (h : lastSplit lit ok s = some (a, b)) : b <:+ s :=
  ⟨a ++ lit, by rw [lastSplit_eq_append lit ok s a b h, List.append_assoc]⟩

/-- Structure of every successful parse: the intermediate remainders of
the anchored match and the relation of the groups to them. -/
lemma from_webhook_some (payload : String) (sig : TradingSignal)
    (h : from_webhook payload = some sig) :
    ∃ r1 r3 r5 vol r6 opos r7 : List Char,
      dropLit "action=".toList payload.toList = some r1 ∧
      r1.takeWhile isWordChar ≠ [] ∧
      dropLit ";symbol=".toList (r1.dropWhile isWordChar) = some r3 ∧
      r3.takeWhile isSymChar ≠ [] ∧
      dropLit ";volume=".toList (r3.dropWhile isSymChar) = some r5 ∧
      lastSplit ";open_position=".toList
        (fun b => hasOcc ";position_closed=".toList b) r5 = some (vol, r6) ∧
      lastSplit ";position_closed=".toList (fun _ => true) r6 = some (opos, r7) ∧
      sig = ⟨String.mk (r1.takeWhile isWordChar), String.mk (r3.takeWhile isSymChar),
             String.mk vol, String.mk opos, matchTag r7⟩ := by
  unfold from_webhook at h
  split at h
  · exact absurd h (by simp)
  · rename_i r1 h1
    split at h
    · exact absurd h (by simp)
    · rename_i hact
      split at h
      · exact absurd h (by simp)
      · rename_i r3 h3
        split at h
        · exact absurd h (by simp)
        · rename_i hsym
          split at h
          · exact absurd h (by simp)
          · rename_i r5 h5
            split at h
            · exact absurd h (by simp)
            · rename_i vol r6 h6
              split at h
              · exact absurd h (by simp)
              · rename_i opos r7 h7
                refine ⟨r1, r3, r5, vol, r6, opos, r7, h1, hact, h3, hsym, h5, h6, h7, ?_⟩
                exact (Option.some.injEq _ _ ▸ h).symm

/-- Counterexample for claim C6: the payload whose optional position_closed
field is entirely absent — well-formed in every other respect — is NOT
accepted: the regex requires the literal key ';position_closed=' (only the
group for its value is optional), so re.match fails and from_webhook
raises MalformedSignal. -/
theorem C6_cex :
    from_webhook "action=buy;symbol=EURUSD;volume=1.0;open_position=Long_1" = none := by
  decide

/-- Claim C6 as amended: parse fails with MalformedSignal exactly for
payloads the anchored key=value grammar does not match, where the grammar
requires the literal ';position_closed=' key — every accepted payload
contains that key (first conjunct), and a payload carrying the key with an
empty value is accepted, with no close tag (second conjunct); only the
value of the position_closed field is optional, not the field itself. -/
theorem C6_amended_grammar :
    (∀ (payload : String) (sig : TradingSignal), from_webhook payload = some sig →
      ";position_closed=".toList <:+: payload.toList) ∧
    from_webhook "action=buy;symbol=EURUSD;volume=1.0;open_position=Long_1;position_closed=" =
      some ⟨"buy", "EURUSD", "1.0", "Long_1", none⟩ := by
  constructor
  · intro payload sig h
    obtain ⟨r1, r3, r5, vol, r6, opos, r7, h1, -, h3, -, h5, h6, h7, -⟩ :=
      from_webhook_some payload sig h
    have hr6 : ";position_closed=".toList <:+: r6 :=
      ⟨opos, r7, (lastSplit_eq_append _ _ _ _ _ h7).symm⟩
    have hs1 : r6 <:+ r5 := lastSplit_tail_suffix _ _ _ _ _ h6
    have hs2 : r5 <:+ r3.dropWhile isSymChar := dropLit_suffix _ _ _ h5
    have hs3 : r3.dropWhile isSymChar <:+ r3 := dropWhileSuffix _ _
    have hs4 : r3 <:+ r1.dropWhile isWordChar := dropLit_suffix _ _ _ h3
    have hs5 : r1.dropWhile isWordChar <:+ r1 := dropWhileSuffix _ _
    have hs6 : r1 <:+ payload.toList := dropLit_suffix _ _ _ h1
    exact hr6.trans
      (((((hs1.trans hs2).trans hs3).trans hs4).trans hs5).trans hs6).isInfix
  · decide

/-- Witness for C6: the accepted payload of the second conjunct does
contain the ';position_closed=' key, by the first conjunct applied to it. -/
theorem C6_amended_grammar_witness :
    ";position_closed=".toList <:+:
      "action=buy;symbol=EURUSD;volume=1.0;open_position=Long_1;position_closed=".toList :=
  C6_amended_grammar.1 "action=buy;symbol=EURUSD;volume=1.0;open_position=Long_1;position_closed="
    ⟨"buy", "EURUSD", "1.0", "Long_1", none⟩ C6_amended_grammar.2

/-! ## Claim C8 -/

/-- Counterexample for claim C8: the payload with action close and volume 0
is accepted by parse, and normalize_action leaves the action as the
lowercase string "close" — not one of the three canonical values BUY /
SELL / CLOSE — while nothing ever checked volume > 0. -/
theorem C8_cex :
    (from_webhook "action=close;symbol=EURUSD;volume=0;open_position=Long_1;position_closed=").map
        normalize_action =
      some ⟨"close", "EURUSD", "0", "Long_1", none⟩ ∧
    ("close" ≠ "BUY" ∧ "close" ≠ "SELL" ∧ "close" ≠ "CLOSE") := by
  constructor
  · decide
  · decide

/-- Claim C8 as amended: for every payload accepted by parse, the signal
after normalize_action has a non-empty symbol (the [\w/]+ group is
non-empty), and its action is BUY, SELL, or the raw action string passed
through unchanged; the canonical CLOSE is never produced by normalization,
and the volume captured by the (.*) group is not validated at all. -/
theorem C8_amended_invariant :
    ∀ (payload : String) (sig : TradingSignal), from_webhook payload = some sig →
      (normalize_action sig).symbol ≠ "" ∧
      ((normalize_action sig).action = "BUY" ∨ (normalize_action sig).action = "SELL" ∨
        (normalize_action sig).action = sig.action) := by
  intro payload sig h
  obtain ⟨r1, r3, r5, vol, r6, opos, r7, -, -, -, hsym, -, -, -, hsig⟩ :=
    from_webhook_some payload sig h
  constructor
  · have hsymbol : (normalize_action sig).symbol = sig.symbol := by
      unfold normalize_action
      split
      · rfl
      · split <;> rfl
    rw [hsymbol, hsig]
    intro hc
    exact hsym (by simpa using congrArg String.data hc)
  · unfold normalize_action
    split
    · exact Or.inl rfl
    · split
      · exact Or.inr (Or.inl rfl)
      · exact Or.inr (Or.inr rfl)

/-- Witness for C8 at a concrete accepted payload. -/
theorem C8_amended_invariant_witness :
    (normalize_action ⟨"buy", "EURUSD", "1.0", "Long_1", none⟩).symbol ≠ "" ∧
    ((normalize_action ⟨"buy", "EURUSD", "1.0", "Long_1", none⟩).action = "BUY" ∨
      (normalize_action ⟨"buy", "EURUSD", "1.0", "Long_1", none⟩).action = "SELL" ∨
      (normalize_action ⟨"buy", "EURUSD", "1.0", "Long_1", none⟩).action = "buy") :=
  C8_amended_invariant "action=buy;symbol=EURUSD;volume=1.0;open_position=Long_1;position_closed="
    ⟨"buy", "EURUSD", "1.0", "Long_1", none⟩ (by decide)
